import Mathlib

/-!
Shallow embedding of the interactive campus map component of the
uni-map-navigate repository (file src/unnamed/part_000, with a second
variant in src/src/components/CampusMap.tsx): the follow state machine,
the cluster update effect, the routing and travel time aggregation, the
route overlay drawing and the shared location deep link handling.
Coordinates are JavaScript floats in the source; they are modelled as
rationals, since no rounding-sensitive float arithmetic occurs in the
modelled paths.
-/

namespace CampusMap

/-- Latitude/longitude pair, as in the `{ lat, lng }` objects of the source. -/
structure Coord where
  lat : ℚ
  lng : ℚ
  deriving DecidableEq

/-- Events consumed by the follow logic: a geolocation `watchPosition`
sample (the user-location effect), the four map interaction events wired
in `initializeMap` via `map.current.on(...)`, and a press of the Locate
Me floating action button. -/
inductive MapEvent where
  | posUpdate (c : Coord)
  | dragStart
  | zoomStart
  | rotateStart
  | touchStart
  | locateMe
  deriving DecidableEq

/-- Renderer instructions emitted by the follow logic: updating the user
marker position (`userMarkerRef` setLngLat / creation) and a viewport
recenter (`map.current.flyTo` with a zoom level). -/
inductive Instr where
  | setUserMarker (c : Coord)
  | flyTo (c : Coord) (zoom : ℕ)
  deriving DecidableEq

/-- The mutable state of the follow logic: the `followUser` flag
(initially `true`) and the last delivered `userLocation` sample
(initially `null`). -/
structure FollowSt where
  followUser : Bool
  userLocation : Option Coord
  deriving DecidableEq

/-- Initial state: `useState(true)` for `followUser`,
`useState(null)` for `userLocation`. -/
def initFollowSt : FollowSt := ⟨true, none⟩

/-- One step of the follow logic, translated from the source:
the user-location effect stores the sample, always updates the user
marker, and calls `flyTo(center, zoom 17)` only when `followRef.current`
is true; the `dragstart`/`zoomstart`/`rotatestart`/`touchstart` handlers
call `setFollowUser(false)`; the Locate Me button calls
`setFollowUser(true)` and `flyTo` only when `userLocation` is set
(`if (userLocation && map.current)`), and otherwise does nothing. -/
def followStep (s : FollowSt) : MapEvent → FollowSt × List Instr
  | MapEvent.posUpdate c =>
      (⟨s.followUser, some c⟩,
        Instr.setUserMarker c :: (if s.followUser then [Instr.flyTo c 17] else []))
  | MapEvent.dragStart => (⟨false, s.userLocation⟩, [])
  | MapEvent.zoomStart => (⟨false, s.userLocation⟩, [])
  | MapEvent.rotateStart => (⟨false, s.userLocation⟩, [])
  | MapEvent.touchStart => (⟨false, s.userLocation⟩, [])
  | MapEvent.locateMe =>
      match s.userLocation with
      | some c => (⟨true, some c⟩, [Instr.flyTo c 17])
      | none => (s, [])

/-- Run a sequence of events through `followStep`, collecting every
emitted renderer instruction in order. -/
def runFollow (s : FollowSt) : List MapEvent → FollowSt × List Instr
  | [] => (s, [])
  | e :: es =>
      let r := followStep s e
      let rest := runFollow r.1 es
      (rest.1, r.2 ++ rest.2)

/-- Recognizes a recenter instruction. -/
def isRecenter : Instr → Bool
  | Instr.flyTo _ _ => true
  | _ => false

/-- C1 counterexample: a Locate Me request does not always move the
state to Following. Before any position fix has been delivered
(`userLocation` still `null`), the Locate Me handler is a no-op, so
after `[dragStart, locateMe]` the state is still Manual
(`followUser = false`), refuting the claim that an explicit recenter
request always forces the Following state. -/
theorem locateMe_without_fix_cex :
    (runFollow initFollowSt [MapEvent.dragStart, MapEvent.locateMe]).1.followUser = false := by
  decide

/-- C1 (amended): every user interaction event (drag, zoom, rotate,
touch start) moves the state to Manual; a position update never changes
the follow flag; a Locate Me request moves the state to Following
whenever a position fix has been delivered, and is a complete no-op
when no fix has been delivered yet. -/
theorem follow_transitions (s : FollowSt) :
    ((followStep s MapEvent.dragStart).1.followUser = false ∧
     (followStep s MapEvent.zoomStart).1.followUser = false ∧
     (followStep s MapEvent.rotateStart).1.followUser = false ∧
     (followStep s MapEvent.touchStart).1.followUser = false) ∧
    (∀ c, (followStep s (MapEvent.posUpdate c)).1.followUser = s.followUser) ∧
    (s.userLocation.isSome = true → (followStep s MapEvent.locateMe).1.followUser = true) ∧
    (s.userLocation = none → followStep s MapEvent.locateMe = (s, [])) := by
  obtain ⟨f, u⟩ := s
  cases u <;> simp [followStep]

/-- Witness for `follow_transitions` at concrete states, exercising the
Locate Me transition both with and without a stored position fix. -/
theorem follow_transitions_w :
    (followStep ⟨false, some ⟨1, 2⟩⟩ MapEvent.locateMe).1.followUser = true ∧
    followStep ⟨false, none⟩ MapEvent.locateMe = (⟨false, none⟩, []) :=
  ⟨(follow_transitions ⟨false, some ⟨1, 2⟩⟩).2.2.1 rfl,
   (follow_transitions ⟨false, none⟩).2.2.2 rfl⟩

/-- C2 counterexample: from the initial state, the event sequence
[positionUpdate, positionUpdate, interactionStart, positionUpdate]
emits two recenter instructions, not one: while `followUser` is true the
user-location effect calls `flyTo` on every delivered sample, so both
the first and the second update recenter. The boolean comparison with 1
is false, refuting the claim of exactly one recenter. -/
theorem follow_seq_cex :
    (runFollow initFollowSt
        [MapEvent.posUpdate ⟨0, 0⟩, MapEvent.posUpdate ⟨1, 1⟩,
         MapEvent.dragStart, MapEvent.posUpdate ⟨2, 2⟩]).2.countP isRecenter = 2 ∧
    ((runFollow initFollowSt
        [MapEvent.posUpdate ⟨0, 0⟩, MapEvent.posUpdate ⟨1, 1⟩,
         MapEvent.dragStart, MapEvent.posUpdate ⟨2, 2⟩]).2.countP isRecenter == 1) = false ∧
    (runFollow initFollowSt
        [MapEvent.posUpdate ⟨0, 0⟩, MapEvent.posUpdate ⟨1, 1⟩,
         MapEvent.dragStart, MapEvent.posUpdate ⟨2, 2⟩]).1.followUser = false := by
  decide

/-- C2 (amended): for any three position samples, the sequence
[positionUpdate a, positionUpdate b, interactionStart, positionUpdate c]
emits exactly two recenter instructions (after the first and the second
update, both received while Following) and ends in state Manual with the
last sample stored. -/
theorem follow_seq_amended (a b c : Coord) :
    runFollow initFollowSt
        [MapEvent.posUpdate a, MapEvent.posUpdate b,
         MapEvent.dragStart, MapEvent.posUpdate c] =
      (⟨false, some c⟩,
       [Instr.setUserMarker a, Instr.flyTo a 17,
        Instr.setUserMarker b, Instr.flyTo b 17,
        Instr.setUserMarker c]) ∧
    (runFollow initFollowSt
        [MapEvent.posUpdate a, MapEvent.posUpdate b,
         MapEvent.dragStart, MapEvent.posUpdate c]).2.countP isRecenter = 2 := by
  constructor <;> rfl

/-- Travel profiles, in the order of the `modes` array of the source. -/
inductive Profile where
  | walking
  | cycling
  | driving
  deriving DecidableEq

/-- One entry of the `modes` array: `{ profile, label }`. -/
structure Mode where
  profile : Profile
  label : String
  deriving DecidableEq

/-- The `modes` array of `getTravelTimes`. -/
def modes : List Mode :=
  [⟨Profile.walking, "Walk"⟩, ⟨Profile.cycling, "Cycle"⟩, ⟨Profile.driving, "Drive"⟩]

/-- Outcome of one `fetch` + `res.json()` of a directions request:
the request throws, or it returns a body in which `routes[0]` is absent,
or a body whose first route has the given duration in seconds. -/
inductive FetchOutcome where
  | throws
  | ok (route : Option ℚ)
  deriving DecidableEq

/-- One element of the `results` array of `getTravelTimes`:
`{ label, duration }` with `duration` in whole minutes or `null`. -/
structure TimeEntry where
  label : String
  duration : Option ℤ
  deriving DecidableEq

/-- JavaScript `Math.round`: round half toward positive infinity. -/
def jsRound (q : ℚ) : ℤ := ⌊q + 1 / 2⌋

/-- The body of the `for (const mode of modes)` loop of
`getTravelTimes`: a successful response with a first route pushes
`Math.round(duration / 60)`, a response without routes pushes `null`,
and a thrown request is caught and pushes `null`. -/
def timeEntryOf (net : Coord → Coord → Profile → FetchOutcome)
    (frm dst : Coord) (m : Mode) : TimeEntry :=
  match net frm dst m.profile with
  | FetchOutcome.throws => ⟨m.label, none⟩
  | FetchOutcome.ok none => ⟨m.label, none⟩
  | FetchOutcome.ok (some d) => ⟨m.label, some (jsRound (d / 60))⟩

/-- Network events observable while `getTravelTimes` runs: issuing the
request for a profile and that request settling (resolving or
rejecting). -/
inductive NetEvent where
  | start (p : Profile)
  | settle (p : Profile)
  deriving DecidableEq

/-- One loop iteration of `getTravelTimes`: the awaited `fetch` for the
current mode is issued and settles before the loop advances, and the
entry for the mode is appended to `results`. -/
def travelFold (net : Coord → Coord → Profile → FetchOutcome) (frm dst : Coord)
    (acc : List NetEvent × List TimeEntry) (m : Mode) :
    List NetEvent × List TimeEntry :=
  (acc.1 ++ [NetEvent.start m.profile, NetEvent.settle m.profile],
   acc.2 ++ [timeEntryOf net frm dst m])

/-- The `getTravelTimes` function of the source, together with the trace
of network events it produces: with a falsy (empty) token it returns
`null` at once; otherwise it loops over `modes` sequentially, awaiting
each request in turn, and returns the three collected entries. The
first component is the event trace, the second the return value. -/
def getTravelTimesRun (token : String) (frm dst : Coord)
    (net : Coord → Coord → Profile → FetchOutcome) :
    List NetEvent × Option (List TimeEntry) :=
  if token = "" then ([], none)
  else
    let r := modes.foldl (travelFold net frm dst) ([], [])
    (r.1, some r.2)

/-- Toasts shown by `handleGetDirections`: the travel-times toast
listing the collected entries, or the fallback toast shown when the
directions are opened in an external maps application. -/
inductive Toast where
  | travelTimes (entries : List TimeEntry)
  | externalDirections
  deriving DecidableEq

/-- The toast behavior of `handleGetDirections`: with a user location
and a map it awaits `getTravelTimes` and shows the travel-times toast
only when the result is non-null; without a user location it opens the
external maps application and shows the fallback toast. -/
def handleGetDirectionsToasts (hasUserLoc : Bool) (token : String)
    (frm dst : Coord) (net : Coord → Coord → Profile → FetchOutcome) :
    List Toast :=
  if hasUserLoc then
    match (getTravelTimesRun token frm dst net).2 with
    | some l => [Toast.travelTimes l]
    | none => []
  else [Toast.externalDirections]

/-- C4: for every origin/destination pair and non-empty routing token,
if exactly one profile request throws and the other two succeed with a
route, `getTravelTimes` resolves with exactly 3 entries in the fixed
Walk/Cycle/Drive order, the failing profile carries duration `null`,
and each succeeding profile carries its own rounded minutes value,
unaffected by the failure. -/
theorem travelTimes_one_failure (tok : String) (htok : tok ≠ "")
    (frm dst : Coord) (net : Coord → Coord → Profile → FetchOutcome)
    (f : Profile) (d : Profile → ℚ)
    (hnet : ∀ p, net frm dst p =
      if p = f then FetchOutcome.throws else FetchOutcome.ok (some (d p))) :
    ∃ l, (getTravelTimesRun tok frm dst net).2 = some l ∧ l.length = 3 ∧
      l = [⟨"Walk", if Profile.walking = f then none
                    else some (jsRound (d Profile.walking / 60))⟩,
           ⟨"Cycle", if Profile.cycling = f then none
                     else some (jsRound (d Profile.cycling / 60))⟩,
           ⟨"Drive", if Profile.driving = f then none
                     else some (jsRound (d Profile.driving / 60))⟩] := by
  refine ⟨_, ?_, ?_, rfl⟩
  · simp only [getTravelTimesRun, if_neg htok, modes, List.foldl, travelFold,
      timeEntryOf, hnet]
    cases f <;> simp
  · cases f <;> simp

/-- Witness for `travelTimes_one_failure`: cycling throws, walking and
driving succeed with 300 and 660 seconds. -/
theorem travelTimes_one_failure_w :
    ∃ l, (getTravelTimesRun "tk" ⟨0, 0⟩ ⟨1, 1⟩
        (fun _ _ p => if p = Profile.cycling then FetchOutcome.throws
                      else FetchOutcome.ok (some (if p = Profile.driving then 660 else 300)))).2
        = some l ∧ l.length = 3 ∧
      l = [⟨"Walk", if Profile.walking = Profile.cycling then none
                    else some (jsRound ((if Profile.walking = Profile.driving then 660 else 300) / 60))⟩,
           ⟨"Cycle", if Profile.cycling = Profile.cycling then none
                     else some (jsRound ((if Profile.cycling = Profile.driving then 660 else 300) / 60))⟩,
           ⟨"Drive", if Profile.driving = Profile.cycling then none
                     else some (jsRound ((if Profile.driving = Profile.driving then 660 else 300) / 60))⟩] :=
  travelTimes_one_failure "tk" (by decide) ⟨0, 0⟩ ⟨1, 1⟩ _ Profile.cycling
    (fun p => if p = Profile.driving then 660 else 300) (fun p => rfl)

/-- Recognizes the issuing of a request in a network event trace. -/
def isStart : NetEvent → Bool
  | NetEvent.start _ => true
  | _ => false

/-- All requests are issued before any settles: after the first event
that is not a start, no start occurs. This is the observable shape of a
concurrently issued batch. -/
def noStartAfterSettle (t : List NetEvent) : Bool :=
  (t.dropWhile isStart).all (fun e => !(isStart e))

/-- A fixed network behavior used for concrete evaluations. -/
def netW : Coord → Coord → Profile → FetchOutcome :=
  fun _ _ _ => FetchOutcome.ok none

/-- C7 counterexample: the requests of one `getTravelTimes` call are
not issued concurrently. The trace of the sequential `for ... await`
loop interleaves starts and settlements: the cycling request starts
only after the walking request has settled, so the
all-starts-before-any-settle property is false. -/
theorem travelTimes_not_concurrent_cex :
    (getTravelTimesRun "tk" ⟨0, 0⟩ ⟨1, 1⟩ netW).1 =
      [NetEvent.start Profile.walking, NetEvent.settle Profile.walking,
       NetEvent.start Profile.cycling, NetEvent.settle Profile.cycling,
       NetEvent.start Profile.driving, NetEvent.settle Profile.driving] ∧
    noStartAfterSettle (getTravelTimesRun "tk" ⟨0, 0⟩ ⟨1, 1⟩ netW).1 = false := by
  decide

/-- C7 (amended): with a non-empty token, for every network behavior,
the three requests are issued strictly sequentially — each request
starts only after the previous one has settled — so the trace is the
fixed walking/cycling/driving interleaving; every profile has settled
before the aggregate call returns, the call returns a (non-null) result
only after all three settlements, and a throwing profile never prevents
the remaining profiles from being issued and completing. -/
theorem travelTimes_sequential (tok : String) (htok : tok ≠ "")
    (frm dst : Coord) (net : Coord → Coord → Profile → FetchOutcome) :
    (getTravelTimesRun tok frm dst net).1 =
      [NetEvent.start Profile.walking, NetEvent.settle Profile.walking,
       NetEvent.start Profile.cycling, NetEvent.settle Profile.cycling,
       NetEvent.start Profile.driving, NetEvent.settle Profile.driving] ∧
    (NetEvent.settle Profile.walking ∈ (getTravelTimesRun tok frm dst net).1 ∧
     NetEvent.settle Profile.cycling ∈ (getTravelTimesRun tok frm dst net).1 ∧
     NetEvent.settle Profile.driving ∈ (getTravelTimesRun tok frm dst net).1) ∧
    ((getTravelTimesRun tok frm dst net).2).isSome = true := by
  refine ⟨?_, ?_, ?_⟩ <;>
    simp [getTravelTimesRun, if_neg htok, modes, travelFold]

/-- Witness for `travelTimes_sequential` at a concrete token, endpoint
pair and network behavior. -/
theorem travelTimes_sequential_w :
    (getTravelTimesRun "tk" ⟨2, 3⟩ ⟨4, 5⟩ netW).1 =
      [NetEvent.start Profile.walking, NetEvent.settle Profile.walking,
       NetEvent.start Profile.cycling, NetEvent.settle Profile.cycling,
       NetEvent.start Profile.driving, NetEvent.settle Profile.driving] ∧
    (NetEvent.settle Profile.walking ∈ (getTravelTimesRun "tk" ⟨2, 3⟩ ⟨4, 5⟩ netW).1 ∧
     NetEvent.settle Profile.cycling ∈ (getTravelTimesRun "tk" ⟨2, 3⟩ ⟨4, 5⟩ netW).1 ∧
     NetEvent.settle Profile.driving ∈ (getTravelTimesRun "tk" ⟨2, 3⟩ ⟨4, 5⟩ netW).1) ∧
    ((getTravelTimesRun "tk" ⟨2, 3⟩ ⟨4, 5⟩ netW).2).isSome = true :=
  travelTimes_sequential "tk" (by decide) ⟨2, 3⟩ ⟨4, 5⟩ netW

/-- C10: with an absent (empty) routing token, `getTravelTimes` returns
`null`, issues no network request at all (empty trace), and
`handleGetDirections` consequently shows no travel-times toast — with a
user location it shows no toast at all, and without one it only shows
the external-directions fallback toast. -/
theorem travelTimes_no_token (frm dst : Coord)
    (net : Coord → Coord → Profile → FetchOutcome)
    (tok : String) (htok : tok = "") :
    getTravelTimesRun tok frm dst net = ([], none) ∧
    handleGetDirectionsToasts true tok frm dst net = [] ∧
    handleGetDirectionsToasts false tok frm dst net = [Toast.externalDirections] := by
  subst htok
  refine ⟨?_, ?_, ?_⟩ <;> simp [getTravelTimesRun, handleGetDirectionsToasts]

/-- Witness for `travelTimes_no_token` at a concrete endpoint pair and
network behavior. -/
theorem travelTimes_no_token_w :
    getTravelTimesRun "" ⟨0, 0⟩ ⟨1, 1⟩ netW = ([], none) ∧
    handleGetDirectionsToasts true "" ⟨0, 0⟩ ⟨1, 1⟩ netW = [] ∧
    handleGetDirectionsToasts false "" ⟨0, 0⟩ ⟨1, 1⟩ netW = [Toast.externalDirections] :=
  travelTimes_no_token ⟨0, 0⟩ ⟨1, 1⟩ netW "" rfl

/-- Outcome of the directions fetch of `drawRoute`: the fetch or JSON
decoding rejects, or the body has no `routes[0]`, or it has a first
route whose geometry is the given non-empty coordinate list (the source
dereferences `coordinates[0]`, so the successful case carries an
explicit head). -/
inductive RouteResponse where
  | fetchError
  | noRoute
  | route (c0 : Coord) (rest : List Coord)
  deriving DecidableEq

/-- A rendered location marker, identified by a stable key with its
position. -/
structure RenderedMarker where
  key : String
  lng : ℚ
  lat : ℚ
  deriving DecidableEq

/-- The renderer-visible state touched by `drawRoute`: whether the
`route` layer and the `route` source are present, and the currently
drawn location markers. -/
structure MapState where
  hasRouteLayer : Bool
  hasRouteSource : Bool
  markers : List RenderedMarker
  deriving DecidableEq

/-- Renderer operations emitted by `drawRoute`. -/
inductive MapOp where
  | removeLayer (id : String)
  | removeSource (id : String)
  | addSource (id : String) (coords : List Coord)
  | addLayer (id : String)
  | fitBounds (west south east north : ℚ) (padding : ℕ)
  deriving DecidableEq

/-- The `bounds.extend(coord)` step of `mapboxgl.LngLatBounds`,
on a (west, south, east, north) quadruple. -/
def extendB (b : ℚ × ℚ × ℚ × ℚ) (c : Coord) : ℚ × ℚ × ℚ × ℚ :=
  (min b.1 c.lng, min b.2.1 c.lat, max b.2.2.1 c.lng, max b.2.2.2 c.lat)

/-- The bounds computation of `drawRoute`: `coordinates.reduce` of
`extend` over the whole geometry, seeded with
`new LngLatBounds(coordinates[0], coordinates[0])`. -/
def routeBounds (c0 : Coord) (cs : List Coord) : ℚ × ℚ × ℚ × ℚ :=
  (c0 :: cs).foldl extendB (c0.lng, c0.lat, c0.lng, c0.lat)

/-- The `drawRoute` function of the source: it returns at once without
a map or with a falsy token; a rejected fetch is caught and does
nothing; a body without routes does nothing; a successful body removes
the existing `route` layer and source if present, adds the new source
and layer, and fits the viewport to the route bounds with padding 50.
The result is the new renderer state and the emitted operations in
order. -/
def drawRoute (hasMap : Bool) (token : String) (resp : RouteResponse)
    (st : MapState) : MapState × List MapOp :=
  if hasMap = false ∨ token = "" then (st, [])
  else
    match resp with
    | RouteResponse.fetchError => (st, [])
    | RouteResponse.noRoute => (st, [])
    | RouteResponse.route c0 rest =>
        let b := routeBounds c0 rest
        (⟨true, true, st.markers⟩,
         (if st.hasRouteLayer then [MapOp.removeLayer "route"] else []) ++
         (if st.hasRouteSource then [MapOp.removeSource "route"] else []) ++
         [MapOp.addSource "route" (c0 :: rest), MapOp.addLayer "route",
          MapOp.fitBounds b.1 b.2.1 b.2.2.1 b.2.2.2 50])

/-- Recognizes the operations that add the route overlay. -/
def isOverlayAdd : MapOp → Bool
  | MapOp.addSource _ _ => true
  | MapOp.addLayer _ => true
  | _ => false

/-- Recognizes the operations that remove the route overlay. -/
def isOverlayRemove : MapOp → Bool
  | MapOp.removeLayer _ => true
  | MapOp.removeSource _ => true
  | _ => false

/-- C8: whenever `drawRoute` succeeds (map present, non-empty token,
response with a first route), the location markers are unchanged, the
emitted operations contain exactly one overlay add pair (one
`addSource` and one `addLayer` for the new route), every overlay
removal forms a prefix of the operation list — so the previous overlay
is fully removed before the new one is added — the removal of the old
layer and source is emitted exactly when each was present, and the
final operation fits the viewport to the bounding box of the new route
with fixed padding 50. -/
theorem drawRoute_replaces_overlay (tok : String) (htok : tok ≠ "")
    (c0 : Coord) (rest : List Coord) (st : MapState) :
    (drawRoute true tok (RouteResponse.route c0 rest) st).1.markers = st.markers ∧
    ((drawRoute true tok (RouteResponse.route c0 rest) st).2.filter isOverlayAdd)
      = [MapOp.addSource "route" (c0 :: rest), MapOp.addLayer "route"] ∧
    (((drawRoute true tok (RouteResponse.route c0 rest) st).2.dropWhile
        isOverlayRemove).filter isOverlayRemove) = [] ∧
    ((drawRoute true tok (RouteResponse.route c0 rest) st).2.takeWhile isOverlayRemove)
      = (if st.hasRouteLayer then [MapOp.removeLayer "route"] else []) ++
        (if st.hasRouteSource then [MapOp.removeSource "route"] else []) ∧
    (drawRoute true tok (RouteResponse.route c0 rest) st).2.getLast? =
      some (MapOp.fitBounds (routeBounds c0 rest).1 (routeBounds c0 rest).2.1
        (routeBounds c0 rest).2.2.1 (routeBounds c0 rest).2.2.2 50) := by
  obtain ⟨hl, hs, mk⟩ := st
  cases hl <;> cases hs <;>
    simp [drawRoute, htok, isOverlayAdd, isOverlayRemove, List.filter,
      List.dropWhile, List.takeWhile, List.getLast?]

/-- Witness for `drawRoute_replaces_overlay` at a concrete token, route
and prior state in which both overlay pieces are present. -/
theorem drawRoute_replaces_overlay_w :
    (drawRoute true "tk" (RouteResponse.route ⟨0, 0⟩ [⟨1, 1⟩])
        ⟨true, true, [⟨"A", 5, 6⟩]⟩).1.markers = [⟨"A", 5, 6⟩] ∧
    ((drawRoute true "tk" (RouteResponse.route ⟨0, 0⟩ [⟨1, 1⟩])
        ⟨true, true, [⟨"A", 5, 6⟩]⟩).2.filter isOverlayAdd)
      = [MapOp.addSource "route" [⟨0, 0⟩, ⟨1, 1⟩], MapOp.addLayer "route"] ∧
    (((drawRoute true "tk" (RouteResponse.route ⟨0, 0⟩ [⟨1, 1⟩])
        ⟨true, true, [⟨"A", 5, 6⟩]⟩).2.dropWhile isOverlayRemove).filter isOverlayRemove) = [] ∧
    ((drawRoute true "tk" (RouteResponse.route ⟨0, 0⟩ [⟨1, 1⟩])
        ⟨true, true, [⟨"A", 5, 6⟩]⟩).2.takeWhile isOverlayRemove)
      = (if (MapState.mk true true [⟨"A", 5, 6⟩]).hasRouteLayer
          then [MapOp.removeLayer "route"] else []) ++
        (if (MapState.mk true true [⟨"A", 5, 6⟩]).hasRouteSource
          then [MapOp.removeSource "route"] else []) ∧
    (drawRoute true "tk" (RouteResponse.route ⟨0, 0⟩ [⟨1, 1⟩])
        ⟨true, true, [⟨"A", 5, 6⟩]⟩).2.getLast? =
      some (MapOp.fitBounds (routeBounds ⟨0, 0⟩ [⟨1, 1⟩]).1 (routeBounds ⟨0, 0⟩ [⟨1, 1⟩]).2.1
        (routeBounds ⟨0, 0⟩ [⟨1, 1⟩]).2.2.1 (routeBounds ⟨0, 0⟩ [⟨1, 1⟩]).2.2.2 50) :=
  drawRoute_replaces_overlay "tk" (by decide) ⟨0, 0⟩ [⟨1, 1⟩] ⟨true, true, [⟨"A", 5, 6⟩]⟩

/-- Marker operations performed by the cluster update effect. -/
inductive MarkerOp where
  | removeM (key : String)
  | createM (key : String) (lng lat : ℚ)
  deriving DecidableEq

/-- The cluster update effect of the source, as the list of marker
operations it performs: it first removes every previously rendered
marker (`markersRef.current.forEach(marker => marker.remove())`), and
then creates one fresh marker per node of the newly computed render
set. There is no diffing against keys. -/
def clusterUpdateOps (prev next : List RenderedMarker) : List MarkerOp :=
  prev.map (fun m => MarkerOp.removeM m.key) ++
  next.map (fun m => MarkerOp.createM m.key m.lng m.lat)

/-- C3 evaluation at the failing input: with previous set
`[marker "A"]` and new render set `[marker "A"]` — the key "A" present
in both — the cluster update effect removes the old marker and creates
a fresh one, i.e. it destroys and recreates a marker whose key appears
in both sets instead of updating it in place. -/
theorem clusterUpdate_recreates_common_key :
    clusterUpdateOps [⟨"A", 1, 2⟩] [⟨"A", 1, 2⟩] =
      [MarkerOp.removeM "A", MarkerOp.createM "A" 1 2] := by
  decide

/-- A campus location row as loaded from the catalogue. -/
structure CampusLocation where
  id : String
  name : String
  category : String
  latitude : ℚ
  longitude : ℚ
  deriving DecidableEq

/-- A GeoJSON point feature handed to the clustering library, carrying
the properties built by the clustering effect. -/
structure GeoPoint where
  locationId : String
  category : String
  name : String
  lng : ℚ
  lat : ℚ
  deriving DecidableEq

/-- The built clustering index: the radius and maxZoom options passed
to the library constructor and the loaded point set. -/
structure SCIndex where
  radius : ℚ
  maxZoom : ℕ
  points : List GeoPoint
  deriving DecidableEq

/-- The clustering effect of the source: with a non-empty catalogue it
maps each location to a point feature and loads all of them into a new
index with radius 20 on mobile and 40 otherwise and maxZoom 18. No
validation of latitude or longitude happens anywhere on this path. -/
def clusteringEffect (isMobile : Bool) (locs : List CampusLocation) :
    Option SCIndex :=
  if locs.length > 0 then
    some ⟨if isMobile then 20 else 40, 18,
      locs.map (fun l => ⟨l.id, l.category, l.name, l.longitude, l.latitude⟩)⟩
  else none

/-- C6 evaluation at the failing input: a location with latitude 100 —
outside [-90, 90] — is accepted by the build path without any fault;
the index is built and the malformed point is loaded unchanged, so
out-of-range coordinates are neither rejected nor surfaced. -/
theorem clustering_build_accepts_out_of_range :
    (clusteringEffect false [⟨"id1", "Bad", "academic", 100, 0⟩]).isSome = true ∧
    clusteringEffect false [⟨"id1", "Bad", "academic", 100, 0⟩] =
      some ⟨40, 18, [⟨"id1", "academic", "Bad", 0, 100⟩]⟩ ∧
    (90 : ℚ) < 100 := by
  refine ⟨by decide, by decide, by norm_num⟩

/-- Recognizes the white space skipped by the JavaScript number
parsing builtin. -/
def isWs (c : Char) : Bool :=
  c = ' ' || c = '\t' || c = '\n' || c = '\r'

/-- Splits the longest digit run off the front of a character list. -/
def takeDigits (cs : List Char) : List Char × List Char :=
  (cs.takeWhile Char.isDigit, cs.dropWhile Char.isDigit)

/-- Value of a digit run. -/
def digitsToNat (ds : List Char) : ℕ :=
  ds.foldl (fun a c => a * 10 + (c.toNat - 48)) 0

/-- Splits a leading sign, returning the sign as an integer factor. -/
def splitSign (cs : List Char) : ℤ × List Char :=
  match cs with
  | '-' :: r => (-1, r)
  | '+' :: r => (1, r)
  | r => (1, r)

/-- Value of an exponent suffix: signed digits after the `e`, zero when
no digits follow. -/
def expVal (cs : List Char) : ℤ :=
  let es := splitSign cs
  let ed := takeDigits es.2
  if ed.1.isEmpty then 0 else es.1 * (digitsToNat ed.1 : ℤ)

/-- Model of the JavaScript `parseFloat` builtin used by the
shared-location URL effect, restricted to finite outcomes: `none`
stands for a result that is not a finite number (`NaN` when no numeric
prefix exists, or an infinity for an `Infinity` literal), and `some q`
for the finite value of the longest numeric prefix — optional sign,
digits with optional fraction, optional exponent. -/
def jsParseFloat (s : String) : Option ℚ :=
  let cs := s.data.dropWhile isWs
  let sgn := splitSign cs
  if sgn.2.take 8 = "Infinity".data then none
  else
    let ip := takeDigits sgn.2
    let fr :=
      match ip.2 with
      | '.' :: r => takeDigits r
      | r => (([] : List Char), r)
    if ip.1.isEmpty && fr.1.isEmpty then none
    else
      let m : ℤ :=
        sgn.1 * ((digitsToNat ip.1 * 10 ^ fr.1.length + digitsToNat fr.1 : ℕ) : ℤ)
      let den : ℕ := 10 ^ fr.1.length
      let e : ℤ :=
        match fr.2 with
        | 'e' :: r3 => expVal r3
        | 'E' :: r3 => expVal r3
        | _ => 0
      if 0 ≤ e then some (mkRat (m * ((10 ^ e.toNat : ℕ) : ℤ)) den)
      else some (mkRat m (den * 10 ^ (-e).toNat))

/-- The shared-location URL effect of the source: it reads the
`sharedLat` and `sharedLng` query parameters; when both are truthy
(present and non-empty) it stores
`{ lat: parseFloat(lat), lng: parseFloat(lng) }` — with no check that
either value parsed as a finite number. The outer `Option` is whether a
SharedLocation is created at all; each inner `Option` is the stored
coordinate, `none` standing for a non-finite `parseFloat` result. -/
def readSharedLocation (latP lngP : Option String) :
    Option (Option ℚ × Option ℚ) :=
  match latP, lngP with
  | some a, some b =>
      if a = "" ∨ b = "" then none
      else some (jsParseFloat a, jsParseFloat b)
  | _, _ => none

/-- The shared-location marker effect: once a map exists and a
SharedLocation was stored, a marker is created for it unconditionally. -/
def sharedMarkerRendered (hasMap : Bool) (latP lngP : Option String) : Bool :=
  hasMap && (readSharedLocation latP lngP).isSome

/-- C9 counterexample: with `sharedLat=abc` and `sharedLng=2`, the
value `abc` does not parse as a finite number (`parseFloat` yields
`NaN`), yet the code still creates a SharedLocation — storing a `NaN`
latitude — and still renders the shared-location marker, refuting the
claim that a non-parsing parameter prevents creation and rendering. -/
theorem sharedLocation_nan_cex :
    readSharedLocation (some "abc") (some "2") = some (none, some 2) ∧
    jsParseFloat "abc" = none ∧
    sharedMarkerRendered true (some "abc") (some "2") = true := by
  decide

/-- C9 (amended): a SharedLocation is created if and only if both query
parameters are present and non-empty; the stored coordinates are the
raw `parseFloat` results with no finiteness check, so a parameter that
does not parse as a finite number still yields a (NaN-coordinate)
SharedLocation. -/
theorem sharedLocation_amended (p q : Option String) :
    ((readSharedLocation p q).isSome = true ↔
      (∃ a, p = some a ∧ a ≠ "") ∧ (∃ b, q = some b ∧ b ≠ "")) ∧
    (∀ a b, p = some a → q = some b → a ≠ "" → b ≠ "" →
      readSharedLocation p q = some (jsParseFloat a, jsParseFloat b)) := by
  constructor
  · cases p with
    | none => cases q <;> simp [readSharedLocation]
    | some a =>
        cases q with
        | none => simp [readSharedLocation]
        | some b =>
            by_cases ha : a = "" <;> by_cases hb : b = "" <;>
              simp [readSharedLocation, ha, hb]
  · intro a b hp hq ha hb
    subst hp; subst hq
    simp [readSharedLocation, ha, hb]

/-- Witness for `sharedLocation_amended` at concrete numeric
parameters. -/
theorem sharedLocation_amended_w :
    readSharedLocation (some "40.5") (some "-73.25") =
      some (jsParseFloat "40.5", jsParseFloat "-73.25") :=
  (sharedLocation_amended (some "40.5") (some "-73.25")).2 "40.5" "-73.25"
    rfl rfl (by decide) (by decide)

/-- Modelled from the spec: the clustering engine behind
`SpatialIndex.query` is the external supercluster library, whose source
is not part of this repository; only the build call sites are. The
pixel projection at a zoom level, with 256-pixel world tiles, models
the fixed-radius pixel-space merge rule of spec section 4.1. -/
def pixelX (z : ℕ) (lng : ℚ) : ℚ :=
  (lng + 180) / 360 * (256 * 2 ^ z)

/-- Modelled from the spec: vertical pixel projection at a zoom level,
spec section 4.1. -/
def pixelY (z : ℕ) (lat : ℚ) : ℚ :=
  (90 - lat) / 180 * (256 * 2 ^ z)

/-- Modelled from the spec: the grid cell of a point at a zoom level —
two points merge at that zoom when they fall in the same radius-sized
cell, spec section 4.1 (hierarchical spatial binning, per-zoom-level
grid). -/
def cellKey (radius : ℚ) (z : ℕ) (p : GeoPoint) : ℤ × ℤ :=
  (⌊pixelX z p.lng / radius⌋, ⌊pixelY z p.lat / radius⌋)

/-- Inserts a point into the group with the given key, keeping the
first-appearance order of groups. -/
def insertGrp (k : ℤ × ℤ) (p : GeoPoint) :
    List ((ℤ × ℤ) × List GeoPoint) → List ((ℤ × ℤ) × List GeoPoint)
  | [] => [(k, [p])]
  | (k2, ps) :: rest =>
      if k = k2 then (k2, ps ++ [p]) :: rest
      else (k2, ps) :: insertGrp k p rest

/-- Modelled from the spec: grouping of the loaded point set by grid
cell at a zoom level, deterministic in the point order. -/
def groupPoints (radius : ℚ) (z : ℕ) (pts : List GeoPoint) :
    List ((ℤ × ℤ) × List GeoPoint) :=
  pts.foldl (fun acc p => insertGrp (cellKey radius z p) p acc) []

/-- Centroid longitude of a point group. -/
def centroidLng (ps : List GeoPoint) : ℚ :=
  (ps.map (fun p => p.lng)).sum / (ps.length : ℚ)

/-- Centroid latitude of a point group. -/
def centroidLat (ps : List GeoPoint) : ℚ :=
  (ps.map (fun p => p.lat)).sum / (ps.length : ℚ)

/-- Modelled from the spec: the minimum zoom at which a merged group
splits into at least two nodes, and maxZoom + 1 when it never splits,
spec section 4.1 (expansion zoom). -/
def expansionZoom (radius : ℚ) (maxZoom z : ℕ) (ps : List GeoPoint) : ℕ :=
  match (List.range (maxZoom + 1)).find?
      (fun z2 => decide (z < z2) && decide (2 ≤ (groupPoints radius z2 ps).length)) with
  | some z2 => z2
  | none => maxZoom + 1

/-- A node answered by a spatial index query: a cluster with centroid,
point count and expansion zoom, or a leaf for a single location. -/
inductive ClusterNode where
  | clusterN (lng lat : ℚ) (pointCount : ℕ) (expZoom : ℕ)
  | leafN (lng lat : ℚ) (locationId : String)
  deriving DecidableEq

/-- Modelled from the spec: the cluster/leaf nodes of the index at a
zoom level — groups of at least two points become clusters, singleton
groups stay leaves, spec sections 3 and 4.1. -/
def nodesAt (ix : SCIndex) (z : ℕ) : List ClusterNode :=
  (groupPoints ix.radius z ix.points).map (fun g =>
    match g.2 with
    | [p] => ClusterNode.leafN p.lng p.lat p.locationId
    | ps => ClusterNode.clusterN (centroidLng ps) (centroidLat ps) ps.length
        (expansionZoom ix.radius ix.maxZoom z ps))

/-- A west/south/east/north bounding box. -/
structure BBox where
  west : ℚ
  south : ℚ
  east : ℚ
  north : ℚ
  deriving DecidableEq

/-- Longitude of a cluster node. -/
def nodeLng : ClusterNode → ℚ
  | ClusterNode.clusterN lng _ _ _ => lng
  | ClusterNode.leafN lng _ _ => lng

/-- Latitude of a cluster node. -/
def nodeLat : ClusterNode → ℚ
  | ClusterNode.clusterN _ lat _ _ => lat
  | ClusterNode.leafN _ lat _ => lat

/-- Whether a node falls inside a bounding box. -/
def inBBox (b : BBox) (n : ClusterNode) : Bool :=
  decide (b.west ≤ nodeLng n) && decide (nodeLng n ≤ b.east) &&
  decide (b.south ≤ nodeLat n) && decide (nodeLat n ≤ b.north)

/-- Modelled from the spec: `query(index, bbox, zoom)` — the nodes of
the index at the zoom level (clamped to maxZoom) that fall inside the
bounding box, spec section 4.1. -/
def scQuery (ix : SCIndex) (b : BBox) (z : ℕ) : List ClusterNode :=
  (nodesAt ix (min z ix.maxZoom)).filter (inBBox b)

/-- A query session against one built index: the only state a query
could observe or mutate. -/
structure QuerySession where
  index : SCIndex
  deriving DecidableEq

/-- Executes one query in a session, returning the possibly updated
session and the answered cluster set. -/
def runQuery (s : QuerySession) (q : BBox × ℕ) :
    QuerySession × List ClusterNode :=
  (s, scQuery s.index q.1 q.2)

/-- Executes a list of queries in order, threading the session state
through and collecting each answer. -/
def runQueries (s : QuerySession) :
    List (BBox × ℕ) → QuerySession × List (List ClusterNode)
  | [] => (s, [])
  | q :: qs =>
      let r := runQuery s q
      let rest := runQueries r.1 qs
      (rest.1, r.2 :: rest.2)

/-- Running a query list leaves the session unchanged and answers each
query purely from the built index. -/
theorem runQueries_spec (s : QuerySession) (qs : List (BBox × ℕ)) :
    runQueries s qs = (s, qs.map (fun q => scQuery s.index q.1 q.2)) := by
  induction qs with
  | nil => rfl
  | cons q qs ih => simp [runQueries, runQuery, ih]

/-- C5: against one built index, any two queries of a session that have
identical (bbox, zoom) arguments receive identical cluster sets, at
whatever positions they occur in the query list and with arbitrary
other queries in between — query keeps no memory of prior queries. -/
theorem scQuery_stateless (ix : SCIndex) (qs : List (BBox × ℕ)) (i j : ℕ)
    (h : qs[i]? = qs[j]?) :
    ((runQueries ⟨ix⟩ qs).2)[i]? = ((runQueries ⟨ix⟩ qs).2)[j]? := by
  rw [runQueries_spec]
  simp only [List.getElem?_map, h]

/-- Witness for `scQuery_stateless`: a concrete two-point index queried
twice with the same bounding box and zoom, with positions 0 and 2 of
the query list holding the identical query and a different query in
between. -/
theorem scQuery_stateless_w :
    ((runQueries ⟨⟨40, 18, [⟨"a", "academic", "A", 10, 20⟩, ⟨"b", "dining", "B", 10, 20⟩]⟩⟩
        [(⟨-180, -90, 180, 90⟩, 3), (⟨0, 0, 1, 1⟩, 18), (⟨-180, -90, 180, 90⟩, 3)]).2)[0]? =
    ((runQueries ⟨⟨40, 18, [⟨"a", "academic", "A", 10, 20⟩, ⟨"b", "dining", "B", 10, 20⟩]⟩⟩
        [(⟨-180, -90, 180, 90⟩, 3), (⟨0, 0, 1, 1⟩, 18), (⟨-180, -90, 180, 90⟩, 3)]).2)[2]? :=
  scQuery_stateless ⟨40, 18, [⟨"a", "academic", "A", 10, 20⟩, ⟨"b", "dining", "B", 10, 20⟩]⟩
    [(⟨-180, -90, 180, 90⟩, 3), (⟨0, 0, 1, 1⟩, 18), (⟨-180, -90, 180, 90⟩, 3)] 0 2 rfl

end CampusMap
